import Mathlib

/-!
Shallow embedding of `src/script.py` (auto-merge-dependabot-prs).

The script evaluates open pull requests, filters the ones authored by a
recognized bot, and decides for each whether it is safe to merge.  We embed
the decision engine: `is_dependabot_pr`, `wait_for_mergeable`,
`ci_checks_passed`, `merge_pr`, and the per-PR loop of `main`.

Host interactions (PR refresh, combined-status fetch, merge request) are
modelled as pure oracles supplied to each evaluation; effects (refresh
calls, delays, status fetches, merge calls) are counted explicitly so that
frame conditions ("no merge call is issued") can be stated.
-/

/-- A pull request snapshot, mirroring the fields of `PullRequest` that
`script.py` reads: number, title, author login, lifecycle state ("open" or
"closed"), draft flag, merged flag. -/
structure PullRequestRef where
  number : Nat
  title : String
  authorLogin : String
  state : String
  draft : Bool
  merged : Bool
deriving Repr, DecidableEq

/-- Result of one `pr.update()` call: either a `GithubException` (carrying a
detail string) or a refreshed `mergeable` field, where `none` models
Python's `None` ("the host has not finished computing mergeability"). -/
inductive RefreshResult where
  | err (detail : String) : RefreshResult
  | ok (mergeable : Option Bool) : RefreshResult
deriving Repr, DecidableEq

/-- One named status check on a commit: `context` (name) and `state`
(e.g. "success", "pending", "failure", "error"). -/
structure StatusCheck where
  context : String
  state : String
deriving Repr, DecidableEq

/-- The combined status of a PR head commit: the list of all status checks.
`total_count` in the GitHub payload is the number of checks. -/
structure CombinedStatus where
  statuses : List StatusCheck
deriving Repr, DecidableEq

/-- `combined_status.total_count` as read by `ci_checks_passed`. -/
def CombinedStatus.total_count (cs : CombinedStatus) : Nat :=
  cs.statuses.length

/-- Result of `pr.get_combined_status()`: a `GithubException` or the data. -/
inductive FetchResult (α : Type) where
  | err (detail : String) : FetchResult α
  | ok (value : α) : FetchResult α
deriving Repr, DecidableEq

/-- Result of `pr.merge(...)`: success, or a `GithubException` with detail. -/
inductive MergeResult where
  | ok : MergeResult
  | rejected (detail : String) : MergeResult
deriving Repr, DecidableEq

/-- The host oracle consumed by one PR evaluation: what the k-th
`pr.update()` call yields, what `pr.get_combined_status()` yields, and how
the host answers `pr.merge(...)`. -/
structure Host where
  refresh : Nat → RefreshResult
  combinedStatus : FetchResult CombinedStatus
  mergeResult : MergeResult

/-- Terminal classification of one PR evaluation, per the spec's
`EligibilityOutcome`. -/
inductive EligibilityOutcome where
  | SkippedDryRun : EligibilityOutcome
  | SkippedAlreadyMerged : EligibilityOutcome
  | SkippedNotOpen : EligibilityOutcome
  | SkippedDraft : EligibilityOutcome
  | SkippedNotMergeable : EligibilityOutcome
  | SkippedCIFailed : EligibilityOutcome
  | MergedOk : EligibilityOutcome
  | MergeFailed (detail : String) : EligibilityOutcome
deriving Repr, DecidableEq

/-- Counters of host interactions performed by one PR evaluation. -/
structure Effects where
  refreshCalls : Nat
  delays : Nat
  statusFetches : Nat
  mergeCalls : Nat
deriving Repr, DecidableEq

/-- The zero-effects record: no host interaction at all. -/
def Effects.none : Effects := ⟨0, 0, 0, 0⟩

/-- Default recognized bot logins (`script.py` line 29). -/
def defaultBots : List String := ["dependabot[bot]", "github-security[bot]"]

/-- `is_dependabot_pr(pr, bots)`: the author login is in the bot list
(`bots = None` selects the default list); Python `in` on a list of strings
is a case-sensitive exact-match membership test. -/
def is_dependabot_pr (pr : PullRequestRef) (bots : Option (List String)) : Bool :=
  (bots.getD defaultBots).contains pr.authorLogin

/-- `wait_for_mergeable(pr, attempts, delay)` with the refresh capability
made explicit.  `remaining` counts loop iterations left, `i` indexes the
next refresh call.  Returns `(result, refreshCalls, delays)`.

Per iteration: call `pr.update()` (one refresh call); on exception return
`False`; if `pr.mergeable is not None` return it; else `time.sleep(delay)`
(one delay) and retry.  After the loop, return `False`. -/
def wait_for_mergeable (refresh : Nat → RefreshResult) :
    (remaining : Nat) → (i : Nat) → Bool × Nat × Nat
  | 0, _ => (false, 0, 0)
  | remaining + 1, i =>
    match refresh i with
    | .err _ => (false, 1, 0)
    | .ok (some m) => (m, 1, 0)
    | .ok Option.none =>
      let r := wait_for_mergeable refresh remaining (i + 1)
      (r.1, r.2.1 + 1, r.2.2 + 1)

/-- Python's `str.lower()` on the strings the script compares: lower-case
each character (`Char.toLower`, the ASCII case mapping). -/
def strLower (s : String) : String :=
  String.mk (s.data.map Char.toLower)

/-- `ci_checks_passed(pr)` with the combined-status fetch made explicit.
Fetch failure → `False`; `total_count == 0` → `False`; otherwise `True`
iff every check satisfies `status.state.lower() == "success"`. -/
def ci_checks_passed (fetched : FetchResult CombinedStatus) : Bool :=
  match fetched with
  | .err _ => false
  | .ok cs =>
    if cs.total_count = 0 then false
    else cs.statuses.all (fun s => strLower s.state = "success")

/-- `merge_pr(pr, merge_method, dry_run)` over the host oracle, returning
the eligibility outcome and the host-interaction effects.  The guard order
is exactly that of the source: dry-run, already-merged, not-open, draft,
mergeability resolution (`attempts` tries), CI gate, then the merge call.
`merge_method` is passed through to the merge request and does not affect
the decision. -/
def merge_pr (host : Host) (pr : PullRequestRef) (merge_method : String)
    (dry_run : Bool) (attempts : Nat) : EligibilityOutcome × Effects :=
  if dry_run then
    (.SkippedDryRun, Effects.none)
  else if pr.merged then
    (.SkippedAlreadyMerged, Effects.none)
  else if pr.state ≠ "open" then
    (.SkippedNotOpen, Effects.none)
  else if pr.draft then
    (.SkippedDraft, Effects.none)
  else
    let w := wait_for_mergeable host.refresh attempts 0
    if !w.1 then
      (.SkippedNotMergeable, ⟨w.2.1, w.2.2, 0, 0⟩)
    else if !ci_checks_passed host.combinedStatus then
      (.SkippedCIFailed, ⟨w.2.1, w.2.2, 1, 0⟩)
    else
      match host.mergeResult with
      | .ok => (.MergedOk, ⟨w.2.1, w.2.2, 1, 1⟩)
      | .rejected d => (.MergeFailed d, ⟨w.2.1, w.2.2, 1, 1⟩)

/-- The run tally accumulated by `main`: `total_prs_checked` and
`total_prs_merged`. -/
structure RunTally where
  total_prs_checked : Nat
  total_prs_merged : Nat
deriving Repr, DecidableEq

/-- The per-PR loop of `main` (lines 144-149): for each PR increment
`total_prs_checked`; if `is_dependabot_pr(pr)`, evaluate `merge_pr` and
increment `total_prs_merged` exactly when it merged (outcome `MergedOk`).
Returns the tally together with the list of eligibility outcomes produced,
in evaluation order (non-bot PRs produce no outcome). -/
def processPRs (dry_run : Bool) (merge_method : String) :
    List (PullRequestRef × Host) → RunTally × List (PullRequestRef × EligibilityOutcome)
  | [] => (⟨0, 0⟩, [])
  | (pr, host) :: rest =>
    let r := processPRs dry_run merge_method rest
    if is_dependabot_pr pr Option.none then
      let e := merge_pr host pr merge_method dry_run 5
      (⟨r.1.total_prs_checked + 1,
        r.1.total_prs_merged + (if e.1 = .MergedOk then 1 else 0)⟩,
       (pr, e.1) :: r.2)
    else
      (⟨r.1.total_prs_checked + 1, r.1.total_prs_merged⟩, r.2)

/-- The guards of the eligibility state machine, per the spec's §4.4 fixed
order.  This type and the three definitions below are the spec side of the
C3 refinement claim: they follow the spec's words (ordered guard list,
first failing guard decides), to be compared with `merge_pr`. -/
inductive Guard where
  | dryRun : Guard
  | alreadyMerged : Guard
  | notOpen : Guard
  | draft : Guard
  | notMergeable : Guard
  | ciFailed : Guard
deriving Repr, DecidableEq

/-- The outcome the spec assigns to each failing guard. -/
def Guard.outcome : Guard → EligibilityOutcome
  | .dryRun => .SkippedDryRun
  | .alreadyMerged => .SkippedAlreadyMerged
  | .notOpen => .SkippedNotOpen
  | .draft => .SkippedDraft
  | .notMergeable => .SkippedNotMergeable
  | .ciFailed => .SkippedCIFailed

/-- Whether a guard is violated for a given PR, configuration and host
(for the two remote guards, what the resolver and the CI gate would
answer on this host). -/
def guardViolated (host : Host) (pr : PullRequestRef) (dry_run : Bool)
    (attempts : Nat) : Guard → Bool
  | .dryRun => dry_run
  | .alreadyMerged => pr.merged
  | .notOpen => pr.state ≠ "open"
  | .draft => pr.draft
  | .notMergeable => !(wait_for_mergeable host.refresh attempts 0).1
  | .ciFailed => !ci_checks_passed host.combinedStatus

/-- The spec's fixed guard order: dry-run, already-merged, not-open, draft,
not-mergeable, CI-failed. -/
def guardOrder : List Guard :=
  [.dryRun, .alreadyMerged, .notOpen, .draft, .notMergeable, .ciFailed]

/-- The earliest violated guard in the fixed order, if any. -/
def firstViolated (host : Host) (pr : PullRequestRef) (dry_run : Bool)
    (attempts : Nat) : Option Guard :=
  (guardOrder.filter (guardViolated host pr dry_run attempts)).head?

/-! ## Theorems -/

/-- C1 counterexample: a pull request with `merged = true` evaluated with the
dry-run flag set yields `SkippedDryRun`, not `SkippedAlreadyMerged` — the
outcome is not independent of the configuration flags, because the dry-run
guard fires before the already-merged guard. -/
theorem C1_counterexample :
    (⟨7, "t", "dependabot[bot]", "closed", true, true⟩ : PullRequestRef).merged = true ∧
    (merge_pr ⟨fun _ => .ok (some true), .ok ⟨[]⟩, .ok⟩
      ⟨7, "t", "dependabot[bot]", "closed", true, true⟩ "squash" true 5).1
      = .SkippedDryRun ∧
    EligibilityOutcome.SkippedDryRun ≠ EligibilityOutcome.SkippedAlreadyMerged :=
  ⟨rfl, rfl, by decide⟩

/-- C1 (amended): for every pull request with `merged = true` evaluated with
the dry-run flag NOT set, the outcome is `SkippedAlreadyMerged` with no host
interaction, regardless of every other field (state, draft, mergeability,
CI status) and of the remaining configuration (merge method, attempts). -/
theorem C1_alreadyMerged (host : Host) (pr : PullRequestRef)
    (mm : String) (attempts : Nat) (h : pr.merged = true) :
    merge_pr host pr mm false attempts = (.SkippedAlreadyMerged, Effects.none) := by
  simp [merge_pr, h]

/-- C1 witness: the amended theorem applied at a concrete already-merged PR. -/
theorem C1_alreadyMerged_witness :
    merge_pr ⟨fun _ => .ok (some true), .ok ⟨[]⟩, .ok⟩
      ⟨7, "t", "dependabot[bot]", "closed", true, true⟩ "squash" false 5
      = (.SkippedAlreadyMerged, Effects.none) :=
  C1_alreadyMerged ⟨fun _ => .ok (some true), .ok ⟨[]⟩, .ok⟩
    ⟨7, "t", "dependabot[bot]", "closed", true, true⟩ "squash" 5 rfl

/-- C2: with the dry-run flag set, `merge_pr` returns `SkippedDryRun` for
every PR, host and configuration, and performs no host interaction at all:
zero refresh calls, zero status fetches and — in particular — zero merge
calls.  Since the result does not depend on any PR field or host answer, no
further guard is evaluated. -/
theorem C2_dryRun (host : Host) (pr : PullRequestRef) (mm : String) (attempts : Nat) :
    merge_pr host pr mm true attempts = (.SkippedDryRun, Effects.none) := by
  simp [merge_pr]

/-- C3: the eligibility state machine refines the spec's ordered guard list.
Whenever at least one guard is violated (so in particular whenever two or
more are violated simultaneously), the outcome of `merge_pr` is exactly the
outcome of the EARLIEST violated guard in the fixed order dry-run,
already-merged, not-open, draft, not-mergeable, CI-failed. -/
theorem C3_guardOrder (host : Host) (pr : PullRequestRef) (mm : String)
    (dr : Bool) (attempts : Nat) (g : Guard)
    (h : firstViolated host pr dr attempts = some g) :
    (merge_pr host pr mm dr attempts).1 = g.outcome := by
  cases dr <;> cases hm : pr.merged <;> by_cases hs : pr.state = "open" <;>
    cases hd : pr.draft <;>
    cases hw : (wait_for_mergeable host.refresh attempts 0).1 <;>
    cases hc : ci_checks_passed host.combinedStatus <;>
    cases hmr : host.mergeResult <;>
    simp_all [firstViolated, guardOrder, guardViolated, merge_pr, Guard.outcome] <;>
    (cases h; rfl)

/-- C3 witness: a PR violating both the not-open and the draft guard
(state = "closed" AND draft = true) yields `SkippedNotOpen` — the earlier
guard — not `SkippedDraft`. -/
theorem C3_guardOrder_witness :
    guardViolated ⟨fun _ => .ok (some true), .ok ⟨[⟨"build", "success"⟩]⟩, .ok⟩
      ⟨1, "t", "dependabot[bot]", "closed", true, false⟩ false 5 .notOpen = true ∧
    guardViolated ⟨fun _ => .ok (some true), .ok ⟨[⟨"build", "success"⟩]⟩, .ok⟩
      ⟨1, "t", "dependabot[bot]", "closed", true, false⟩ false 5 .draft = true ∧
    (merge_pr ⟨fun _ => .ok (some true), .ok ⟨[⟨"build", "success"⟩]⟩, .ok⟩
      ⟨1, "t", "dependabot[bot]", "closed", true, false⟩ "squash" false 5).1
      = Guard.outcome .notOpen :=
  ⟨by decide, rfl,
   C3_guardOrder ⟨fun _ => .ok (some true), .ok ⟨[⟨"build", "success"⟩]⟩, .ok⟩
     ⟨1, "t", "dependabot[bot]", "closed", true, false⟩ "squash" false 5 .notOpen (by decide)⟩

/-- Helper: the resolver performs at most `n` refresh calls when given `n`
attempts. -/
theorem wait_refreshCalls_le (refresh : Nat → RefreshResult) :
    ∀ (n i : Nat), (wait_for_mergeable refresh n i).2.1 ≤ n := by
  intro n
  induction n with
  | zero => intro i; simp [wait_for_mergeable]
  | succ m ih =>
    intro i
    cases hri : refresh i with
    | err d => simp [wait_for_mergeable, hri]
    | ok mo =>
      cases mo with
      | none =>
        simp only [wait_for_mergeable, hri]
        exact Nat.succ_le_succ (ih (i + 1))
      | some b => simp [wait_for_mergeable, hri]

/-- C4: the Mergeability Resolver performs at most `n` refresh calls;
with the default 5 attempts, a stub answering "unknown" four times and
"mergeable" on the fifth yields `true` after exactly 5 refresh calls and 4
delays, and a stub answering "unknown" all five times yields `false` after
exactly 5 refresh calls (no 6th call). -/
theorem C4_resolver :
    (∀ (refresh : Nat → RefreshResult) (n i : Nat),
      (wait_for_mergeable refresh n i).2.1 ≤ n) ∧
    (∀ refresh : Nat → RefreshResult,
      (∀ i, i < 4 → refresh i = .ok Option.none) → refresh 4 = .ok (some true) →
      wait_for_mergeable refresh 5 0 = (true, 5, 4)) ∧
    (∀ refresh : Nat → RefreshResult,
      (∀ i, i < 5 → refresh i = .ok Option.none) →
      wait_for_mergeable refresh 5 0 = (false, 5, 5)) := by
  refine ⟨wait_refreshCalls_le, ?_, ?_⟩
  · intro refresh hu h4
    have h0 : refresh 0 = .ok Option.none := hu 0 (by norm_num)
    have h1 : refresh 1 = .ok Option.none := hu 1 (by norm_num)
    have h2 : refresh 2 = .ok Option.none := hu 2 (by norm_num)
    have h3 : refresh 3 = .ok Option.none := hu 3 (by norm_num)
    simp [wait_for_mergeable, h0, h1, h2, h3, h4]
  · intro refresh hu
    have h0 : refresh 0 = .ok Option.none := hu 0 (by norm_num)
    have h1 : refresh 1 = .ok Option.none := hu 1 (by norm_num)
    have h2 : refresh 2 = .ok Option.none := hu 2 (by norm_num)
    have h3 : refresh 3 = .ok Option.none := hu 3 (by norm_num)
    have h4 : refresh 4 = .ok Option.none := hu 4 (by norm_num)
    simp [wait_for_mergeable, h0, h1, h2, h3, h4]

/-- C4 witness: the two refresh stubs of the claim, evaluated concretely. -/
theorem C4_resolver_witness :
    wait_for_mergeable (fun i => if i < 4 then .ok Option.none else .ok (some true)) 5 0
      = (true, 5, 4) ∧
    wait_for_mergeable (fun _ => .ok Option.none) 5 0 = (false, 5, 5) :=
  ⟨C4_resolver.2.1 _ (fun i hi => by simp [hi]) rfl,
   C4_resolver.2.2 _ (fun i _ => rfl)⟩

/-- C5: if the k-th refresh call (after k earlier "unknown" answers) raises
a host communication error, the resolver returns `false` immediately, with
exactly k+1 refresh calls — none after the failed one — and k delays,
however many attempts remain. -/
theorem C5_refreshFailure (refresh : Nat → RefreshResult) :
    ∀ (k n i : Nat) (e : String), k < n →
    (∀ j, j < k → refresh (i + j) = .ok Option.none) →
    refresh (i + k) = .err e →
    wait_for_mergeable refresh n i = (false, k + 1, k) := by
  intro k
  induction k with
  | zero =>
    intro n i e hk hunk herr
    match n, hk with
    | m + 1, _ =>
      simp only [Nat.add_zero] at herr
      simp [wait_for_mergeable, herr]
  | succ k ih =>
    intro n i e hk hunk herr
    match n, hk with
    | m + 1, hk =>
      have h0 : refresh i = .ok Option.none := by
        have := hunk 0 (Nat.succ_pos k)
        simpa using this
      simp only [wait_for_mergeable, h0]
      have hrec : wait_for_mergeable refresh m (i + 1) = (false, k + 1, k) := by
        refine ih m (i + 1) e (by omega) ?_ ?_
        · intro j hj
          have heq : i + 1 + j = i + (j + 1) := by omega
          rw [heq]
          exact hunk (j + 1) (by omega)
        · have heq : i + 1 + k = i + (k + 1) := by omega
          rw [heq]
          exact herr
      rw [hrec]

/-- C5 witness: a stub answering "unknown" twice and erroring on the third
call makes the resolver return `false` after exactly 3 refresh calls, with
2 attempts left unused. -/
theorem C5_refreshFailure_witness :
    wait_for_mergeable
      (fun i => if i < 2 then .ok Option.none else .err "boom") 5 0
      = (false, 3, 2) :=
  C5_refreshFailure _ 2 5 0 "boom" (by norm_num)
    (fun j hj => by simp [hj]) rfl

/-- C6: the CI Gate passes iff the combined-status fetch succeeded, the
check set is non-empty, and every check's state equals "success" after
lower-casing.  Consequently an empty `CombinedStatus` fails, any
pending/failure/error/other check fails, and a failed fetch fails. -/
theorem C6_ciGate (fetched : FetchResult CombinedStatus) :
    ci_checks_passed fetched = true ↔
    ∃ cs, fetched = .ok cs ∧ cs.statuses ≠ [] ∧
      ∀ s ∈ cs.statuses, strLower s.state = "success" := by
  cases fetched with
  | err d => simp [ci_checks_passed]
  | ok cs =>
    by_cases hn : cs.statuses = [] <;>
      simp [ci_checks_passed, CombinedStatus.total_count, hn,
        List.length_eq_zero, List.all_eq_true, decide_eq_true_eq]

/-- C7: an already-merged PR never reaches the Mergeability Resolver or the
CI Gate: for every host, configuration and dry-run setting, evaluating a PR
with `merged = true` performs zero refresh calls and zero status fetches. -/
theorem C7_alreadyMergedFrame (host : Host) (pr : PullRequestRef)
    (mm : String) (dr : Bool) (attempts : Nat) (h : pr.merged = true) :
    (merge_pr host pr mm dr attempts).2.refreshCalls = 0 ∧
    (merge_pr host pr mm dr attempts).2.statusFetches = 0 := by
  cases dr <;> simp [merge_pr, h, Effects.none]

/-- C7 witness: the frame condition evaluated at a concrete merged PR. -/
theorem C7_alreadyMergedFrame_witness :
    ((⟨7, "t", "dependabot[bot]", "closed", true, true⟩ : PullRequestRef).merged = true) ∧
    (merge_pr ⟨fun _ => .ok (some true), .ok ⟨[]⟩, .ok⟩
      ⟨7, "t", "dependabot[bot]", "closed", true, true⟩ "squash" false 5).2.refreshCalls = 0 ∧
    (merge_pr ⟨fun _ => .ok (some true), .ok ⟨[]⟩, .ok⟩
      ⟨7, "t", "dependabot[bot]", "closed", true, true⟩ "squash" false 5).2.statusFetches = 0 :=
  ⟨rfl,
   C7_alreadyMergedFrame ⟨fun _ => .ok (some true), .ok ⟨[]⟩, .ok⟩
     ⟨7, "t", "dependabot[bot]", "closed", true, true⟩ "squash" false 5 rfl⟩

/-- C8: when a PR passes every guard and the host rejects the merge
request, the outcome is `MergeFailed` carrying the host's error detail (the
exception is caught, not propagated), the merged counter is not
incremented, and the run continues: the remaining PRs are processed exactly
as they would be on their own. -/
theorem C8_mergeRejected (host : Host) (pr : PullRequestRef) (mm : String)
    (d : String) (rest : List (PullRequestRef × Host))
    (hrej : host.mergeResult = .rejected d)
    (hm : pr.merged = false) (hs : pr.state = "open") (hd : pr.draft = false)
    (hw : (wait_for_mergeable host.refresh 5 0).1 = true)
    (hc : ci_checks_passed host.combinedStatus = true)
    (hbot : is_dependabot_pr pr Option.none = true) :
    (merge_pr host pr mm false 5).1 = .MergeFailed d ∧
    processPRs false mm ((pr, host) :: rest)
      = (⟨(processPRs false mm rest).1.total_prs_checked + 1,
          (processPRs false mm rest).1.total_prs_merged⟩,
         (pr, .MergeFailed d) :: (processPRs false mm rest).2) := by
  have hout : (merge_pr host pr mm false 5).1 = .MergeFailed d := by
    simp [merge_pr, hm, hs, hd, hw, hc, hrej]
  refine ⟨hout, ?_⟩
  simp [processPRs, hbot, hout]

/-- C8 witness: a host that rejects the merge with "branch protected" gives
that one PR the outcome `MergeFailed "branch protected"`, counts it as
checked but not merged, and the run terminates normally. -/
theorem C8_mergeRejected_witness :
    processPRs false "squash"
      [(⟨42, "bump", "dependabot[bot]", "open", false, false⟩,
        ⟨fun _ => .ok (some true), .ok ⟨[⟨"build", "success"⟩]⟩, .rejected "branch protected"⟩)]
      = (⟨1, 0⟩, [(⟨42, "bump", "dependabot[bot]", "open", false, false⟩,
                   .MergeFailed "branch protected")]) :=
  (C8_mergeRejected
    ⟨fun _ => .ok (some true), .ok ⟨[⟨"build", "success"⟩]⟩, .rejected "branch protected"⟩
    ⟨42, "bump", "dependabot[bot]", "open", false, false⟩ "squash" "branch protected" []
    rfl rfl rfl rfl rfl (by decide) (by decide)).2

/-- C9: the Bot Identity Filter with the default list recognizes exactly
the logins "dependabot[bot]" and "github-security[bot]" (case-sensitive
exact match), and a PR whose author is not recognized is never evaluated:
the run counts it as checked but produces no eligibility outcome for it and
leaves the merged counter and all other outcomes unchanged. -/
theorem C9_botFilter (pr : PullRequestRef) :
    (is_dependabot_pr pr Option.none = true ↔
      pr.authorLogin = "dependabot[bot]" ∨ pr.authorLogin = "github-security[bot]") ∧
    (∀ (dr : Bool) (mm : String) (host : Host) (rest : List (PullRequestRef × Host)),
      is_dependabot_pr pr Option.none = false →
      processPRs dr mm ((pr, host) :: rest)
        = (⟨(processPRs dr mm rest).1.total_prs_checked + 1,
            (processPRs dr mm rest).1.total_prs_merged⟩,
           (processPRs dr mm rest).2)) := by
  constructor
  · simp [is_dependabot_pr, defaultBots]
  · intro dr mm host rest h
    simp [processPRs, h]

/-- C9 witness: a PR authored by "alice" is counted as checked but yields
no eligibility outcome, even though it would merge cleanly. -/
theorem C9_botFilter_witness :
    is_dependabot_pr ⟨9, "feat", "alice", "open", false, false⟩ Option.none = false ∧
    processPRs false "squash"
      [(⟨9, "feat", "alice", "open", false, false⟩,
        ⟨fun _ => .ok (some true), .ok ⟨[⟨"build", "success"⟩]⟩, .ok⟩)]
      = (⟨1, 0⟩, []) :=
  ⟨rfl,
   (C9_botFilter ⟨9, "feat", "alice", "open", false, false⟩).2 false "squash"
     ⟨fun _ => .ok (some true), .ok ⟨[⟨"build", "success"⟩]⟩, .ok⟩ [] rfl⟩

/-- Helper: the merged counter never exceeds the checked counter. -/
theorem processPRs_merged_le (dr : Bool) (mm : String) :
    ∀ l : List (PullRequestRef × Host),
      (processPRs dr mm l).1.total_prs_merged ≤ (processPRs dr mm l).1.total_prs_checked := by
  intro l
  induction l with
  | nil => simp [processPRs]
  | cons hd tl ih =>
    obtain ⟨pr, host⟩ := hd
    by_cases hb : is_dependabot_pr pr Option.none = true
    · simp only [processPRs, hb, if_true]
      split <;> omega
    · simp only [processPRs, hb, Bool.false_eq_true, if_false]
      omega

/-- Helper: a dry run never increments the merged counter. -/
theorem processPRs_dryRun_merged (mm : String) :
    ∀ l : List (PullRequestRef × Host),
      (processPRs true mm l).1.total_prs_merged = 0 := by
  intro l
  induction l with
  | nil => rfl
  | cons hd tl ih =>
    obtain ⟨pr, host⟩ := hd
    by_cases hb : is_dependabot_pr pr Option.none = true
    · simp [processPRs, hb, merge_pr, ih]
    · simp [processPRs, hb, ih]

/-- C10: at every point of a run (every prefix of the PR list) the tally
satisfies merged ≤ checked; after a complete dry run the merged counter is
0; and the outcome `MergedOk` — the only one that increments the merged
counter — occurs only when a merge call was actually issued to the host
(`mergeCalls = 1`) and the host answered success. -/
theorem C10_tally :
    (∀ (dr : Bool) (mm : String) (l : List (PullRequestRef × Host)) (k : Nat),
      (processPRs dr mm (l.take k)).1.total_prs_merged
        ≤ (processPRs dr mm (l.take k)).1.total_prs_checked) ∧
    (∀ (mm : String) (l : List (PullRequestRef × Host)),
      (processPRs true mm l).1.total_prs_merged = 0) ∧
    (∀ (host : Host) (pr : PullRequestRef) (mm : String) (dr : Bool) (attempts : Nat),
      (merge_pr host pr mm dr attempts).1 = .MergedOk →
      host.mergeResult = .ok ∧ (merge_pr host pr mm dr attempts).2.mergeCalls = 1) := by
  refine ⟨fun dr mm l k => processPRs_merged_le dr mm (l.take k),
          fun mm l => processPRs_dryRun_merged mm l, ?_⟩
  intro host pr mm dr attempts h
  cases dr <;> by_cases hm : pr.merged <;> by_cases hs : pr.state = "open" <;>
    by_cases hd : pr.draft <;>
    cases hw : (wait_for_mergeable host.refresh attempts 0).1 <;>
    cases hc : ci_checks_passed host.combinedStatus <;>
    cases hmr : host.mergeResult <;> simp_all [merge_pr]

/-- C10 witness: a dry run over one cleanly-mergeable bot PR merges 0 PRs,
and a real `MergedOk` outcome comes with a successful host merge call. -/
theorem C10_tally_witness :
    (processPRs true "squash"
      [(⟨42, "bump", "dependabot[bot]", "open", false, false⟩,
        ⟨fun _ => .ok (some true), .ok ⟨[⟨"build", "success"⟩]⟩, .ok⟩)]).1.total_prs_merged = 0 ∧
    ((⟨fun _ => .ok (some true), .ok ⟨[⟨"build", "success"⟩]⟩, .ok⟩ : Host).mergeResult
        = .ok ∧
      (merge_pr ⟨fun _ => .ok (some true), .ok ⟨[⟨"build", "success"⟩]⟩, .ok⟩
        ⟨42, "bump", "dependabot[bot]", "open", false, false⟩ "squash" false 5).2.mergeCalls = 1) :=
  ⟨C10_tally.2.1 "squash" _,
   C10_tally.2.2 ⟨fun _ => .ok (some true), .ok ⟨[⟨"build", "success"⟩]⟩, .ok⟩
     ⟨42, "bump", "dependabot[bot]", "open", false, false⟩ "squash" false 5 (by decide)⟩
